import Mathlib

/-!
Verification of the RegimAI Gateway repository.

Shallow embedding of the three JavaScript subsystems:
- `scripts/gateway-server.js` (class `RegimAIGateway`)
- `public/assets/js/cognitive-layer.js` (class `CognitiveLayer`)
- the site build script (class `SiteBuilder`)

JavaScript strings are embedded as `List Char` (one entry per code point);
JavaScript objects used as string-keyed maps are embedded as association
lists in insertion order (a later assignment to the same key shadows the
earlier one on lookup) or, for `requestStats.byService`, as a function
`String → Option Nat`.  JavaScript numbers that only ever hold counts are
embedded as `Nat`; the error-rate division is embedded over `ℚ`.
`Math.random()` draws are embedded as an explicit stream `Nat → ℚ`
supplied as a parameter, and `Date.now()` / `new Date()` values as
explicit parameters.
-/

/-- Character code 39, the single-quote character. -/
def quoteChar1 : Char := Char.ofNat 39

/-- Character code 34, the double-quote character. -/
def quoteChar2 : Char := Char.ofNat 34

/-- Character code 123, the opening curly brace. -/
def lbrace : Char := Char.ofNat 123

/-- Character code 125, the closing curly brace. -/
def rbrace : Char := Char.ofNat 125

/-! ## Gateway server: API key validation (gateway-server.js, `validateApiKey`)

```js
validateApiKey(apiKey) {
    // In production, validate against auth service
    return apiKey.startsWith('regima_') && apiKey.length > 20;
}
```
-/

/-- The literal prefix `regima_` required of API keys. -/
def regimaKeyMarker : List Char := "regima_".data

/-- `RegimAIGateway.validateApiKey` from gateway-server.js. -/
def validateApiKey (apiKey : List Char) : Bool :=
  regimaKeyMarker.isPrefixOf apiKey && decide (apiKey.length > 20)

/-! ## Gateway server: authentication middleware (`authenticateRequest`)

```js
authenticateRequest(req, res, next) {
    const apiKey = req.headers['x-api-key'] || req.query.apiKey;
    if (!apiKey) { return res.status(401).json({ error: 'Authentication required', ... }); }
    if (!this.validateApiKey(apiKey)) { return res.status(403).json({ error: 'Invalid API key', ... }); }
    req.user = { apiKey, role: 'user' };
    next();
}
```
The middleware is mounted on the paths `/v1/*`, `/agents/*`, `/data/*`,
`/tools/*` in `setupMiddleware`.
-/

/-- Minimal JSON values, for the bodies the gateway sends with `res.json`. -/
inductive Json where
  | str (s : List Char)
  | num (n : Int)
  | obj (fields : List (List Char × Json))
  | arr (elems : List Json)

/-- An HTTP response as produced by the embedded handlers: a status code
(`res.json` alone means 200) and a JSON body. -/
structure GatewayResponse where
  status : Nat
  body : Json

/-- A request as seen by a gateway handler: JSON body, headers and query
parameters (association lists), method and path. -/
structure GatewayRequest where
  body : Json
  headers : List (List Char × List Char)
  query : List (List Char × List Char)
  method : List Char
  path : List Char

/-- JavaScript truthiness of an optional string: `undefined` and the empty
string are falsy, used to embed `a || b` on strings. -/
def jsTruthy (s : Option (List Char)) : Option (List Char) :=
  match s with
  | none => none
  | some [] => none
  | some v => some v

/-- `req.headers['x-api-key'] || req.query.apiKey`: the header wins when it
is truthy, otherwise the query parameter is consulted. -/
def extractApiKey (headerKey queryKey : Option (List Char)) : Option (List Char) :=
  match jsTruthy headerKey with
  | some v => some v
  | none => jsTruthy queryKey

/-- Outcome of the authentication middleware: an early error response, or
control passed to the route handler with `req.user.apiKey` set. -/
inductive AuthResult where
  | denied (response : GatewayResponse)
  | allowed (apiKey : List Char)

/-- The 401 response body sent when no API key is supplied. -/
def missingKeyResponse : GatewayResponse :=
  { status := 401
    body := Json.obj
      [("error".data, Json.str "Authentication required".data),
       ("message".data, Json.str
         "API key must be provided in X-API-Key header or apiKey query parameter".data)] }

/-- The 403 response body sent when the supplied API key fails validation. -/
def invalidKeyResponse : GatewayResponse :=
  { status := 403
    body := Json.obj
      [("error".data, Json.str "Invalid API key".data),
       ("message".data, Json.str "The provided API key is not valid".data)] }

/-- `RegimAIGateway.authenticateRequest` from gateway-server.js. -/
def authenticateRequest (headerKey queryKey : Option (List Char)) : AuthResult :=
  match extractApiKey headerKey queryKey with
  | none => .denied missingKeyResponse
  | some k => if validateApiKey k then .allowed k else .denied invalidKeyResponse

/-- The four mount points of the authentication middleware in
`setupMiddleware`: `/v1/*`, `/agents/*`, `/data/*`, `/tools/*`. -/
def protectedPrefixes : List (List Char) :=
  ["/v1/".data, "/agents/".data, "/data/".data, "/tools/".data]

/-- A path is protected when it lies under one of the four mount points. -/
def isProtectedPath (path : List Char) : Bool :=
  protectedPrefixes.any (fun p => p.isPrefixOf path)

/-- Dispatch of one request through the middleware stack: on a protected
path the authentication middleware runs first and only a successful
authentication invokes the route handler (which receives `req.user.apiKey`);
on other paths the handler runs directly with no key. -/
def routeRequest (path : List Char) (headerKey queryKey : Option (List Char))
    (handler : Option (List Char) → GatewayResponse) : GatewayResponse :=
  if isProtectedPath path then
    match authenticateRequest headerKey queryKey with
    | .denied resp => resp
    | .allowed k => handler (some k)
  else handler none

/-! ## Gateway server: the ten placeholder handlers

```js
async handleAzureOpenAIChat(req, res) { res.json({ message: 'Azure OpenAI endpoint - implementation pending' }); }
...
```
-/

/-- The constant `res.json({ message })` response a placeholder handler sends. -/
def pendingResponse (message : List Char) : GatewayResponse :=
  { status := 200, body := Json.obj [("message".data, Json.str message)] }

/-- `RegimAIGateway.handleAzureOpenAIChat`. -/
def handleAzureOpenAIChat (_req : GatewayRequest) : GatewayResponse :=
  pendingResponse "Azure OpenAI endpoint - implementation pending".data

/-- `RegimAIGateway.handleCognitiveAnalysis`. -/
def handleCognitiveAnalysis (_req : GatewayRequest) : GatewayResponse :=
  pendingResponse "Cognitive analysis endpoint - implementation pending".data

/-- `RegimAIGateway.handleDermatologyAssistant`. -/
def handleDermatologyAssistant (_req : GatewayRequest) : GatewayResponse :=
  pendingResponse "Dermatology assistant endpoint - implementation pending".data

/-- `RegimAIGateway.handleProductAdvisor`. -/
def handleProductAdvisor (_req : GatewayRequest) : GatewayResponse :=
  pendingResponse "Product advisor endpoint - implementation pending".data

/-- `RegimAIGateway.handleVectorSearch`. -/
def handleVectorSearch (_req : GatewayRequest) : GatewayResponse :=
  pendingResponse "Vector search endpoint - implementation pending".data

/-- `RegimAIGateway.handleKnowledgeQuery`. -/
def handleKnowledgeQuery (_req : GatewayRequest) : GatewayResponse :=
  pendingResponse "Knowledge query endpoint - implementation pending".data

/-- `RegimAIGateway.handleRoutineGenerator`. -/
def handleRoutineGenerator (_req : GatewayRequest) : GatewayResponse :=
  pendingResponse "Routine generator endpoint - implementation pending".data

/-- `RegimAIGateway.handleAtomSpaceQuery`. -/
def handleAtomSpaceQuery (_req : GatewayRequest) : GatewayResponse :=
  pendingResponse "AtomSpace query endpoint - implementation pending".data

/-- `RegimAIGateway.handlePLNReasoning`. -/
def handlePLNReasoning (_req : GatewayRequest) : GatewayResponse :=
  pendingResponse "PLN reasoning endpoint - implementation pending".data

/-- `RegimAIGateway.handlePatternMining`. -/
def handlePatternMining (_req : GatewayRequest) : GatewayResponse :=
  pendingResponse "Pattern mining endpoint - implementation pending".data

/-! ## Gateway server: request statistics

```js
this.requestStats = { total: 0, byService: {}, errors: 0 };

updateServiceStats(serviceName) {
    if (!this.requestStats.byService[serviceName]) {
        this.requestStats.byService[serviceName] = 0;
    }
    this.requestStats.byService[serviceName]++;
}

getServiceMetrics() {
    return {
        totalRequests: this.requestStats.total,
        requestsByService: this.requestStats.byService,
        errorRate: this.requestStats.total > 0 ? this.requestStats.errors / this.requestStats.total : 0
    };
}
```
-/

/-- The in-memory `requestStats` object of the gateway. -/
structure RequestStats where
  total : Nat
  byService : String → Option Nat
  errors : Nat

/-- `RegimAIGateway.updateServiceStats`: the absent (or falsy) counter is
first created at zero, then incremented. -/
def updateServiceStats (st : RequestStats) (serviceName : String) : RequestStats :=
  let current := (st.byService serviceName).getD 0
  { st with byService := fun n => if n = serviceName then some (current + 1) else st.byService n }

/-- The value returned by `getServiceMetrics`. -/
structure ServiceMetrics where
  totalRequests : Nat
  requestsByService : String → Option Nat
  errorRate : ℚ

/-- `RegimAIGateway.getServiceMetrics`. -/
def getServiceMetrics (st : RequestStats) : ServiceMetrics :=
  { totalRequests := st.total
    requestsByService := st.byService
    errorRate := if st.total > 0 then (st.errors : ℚ) / (st.total : ℚ) else 0 }

/-! ## Cognitive layer: navigation history (cognitive-layer.js, `predictUserJourney`)

```js
predictUserJourney(currentPath) {
    const navigationHistory = JSON.parse(localStorage.getItem('skintwin_navigation') || '[]');
    navigationHistory.push({ path: currentPath, timestamp: Date.now() });
    // Keep only last 50 entries
    if (navigationHistory.length > 50) {
        navigationHistory.splice(0, navigationHistory.length - 50);
    }
    localStorage.setItem('skintwin_navigation', JSON.stringify(navigationHistory));
    const predictions = this.generateNavigationPredictions(navigationHistory);
    return predictions;
}
```
-/

/-- One entry of the persisted navigation history. -/
structure NavEntry where
  path : List Char
  timestamp : Nat
deriving DecidableEq

/-- One element of the prediction list `generateNavigationPredictions` builds. -/
structure NavPrediction where
  path : List Char
  probability : ℚ
deriving DecidableEq

/-- Ordered-map update used to embed `Map.set(key, (Map.get(key) || 0) + 1)`:
an existing key keeps its position, a new key is appended. -/
def bumpKey : List (List Char × Nat) → List Char → List (List Char × Nat)
  | [], k => [(k, 1)]
  | (k', c) :: rest, k =>
    if k' = k then (k', c + 1) :: rest else (k', c) :: bumpKey rest k

/-- The transition counts over consecutive pairs of the history, keyed by
the template string `from + underscore + to`. -/
def buildTransitions (history : List NavEntry) : List (List Char × Nat) :=
  (history.zip history.tail).foldl
    (fun trans fromTo => bumpKey trans (fromTo.1.path ++ '_' :: fromTo.2.path))
    []

/-- Non-increasing comparison on prediction probability, the sort order of
`predictions.sort((a, b) => b.probability - a.probability)`. -/
def probGE (a b : NavPrediction) : Prop := b.probability ≤ a.probability

instance : DecidableRel probGE := fun a b =>
  inferInstanceAs (Decidable (b.probability ≤ a.probability))

instance : IsTotal NavPrediction probGE :=
  ⟨fun a b => le_total b.probability a.probability⟩

instance : IsTrans NavPrediction probGE :=
  ⟨fun _ _ _ h1 h2 => le_trans h2 h1⟩

/-- `CognitiveLayer.generateNavigationPredictions`: counts path transitions,
keeps those leaving the current (last) path with probability
`count / history.length`, sorts by non-increasing probability and keeps the
top three.  `key.split(underscore)` destructured as `[from, to]` takes the
first two split pieces. -/
def generateNavigationPredictions (history : List NavEntry) : List NavPrediction :=
  let transitions := buildTransitions history
  let currentPath := (history.getLast?).map NavEntry.path
  let predictions := transitions.foldl
    (fun preds kv =>
      let parts := kv.1.splitOn '_'
      let src := parts.getD 0 []
      let dst := parts.getD 1 []
      if some src = currentPath then
        preds ++ [{ path := dst, probability := (kv.2 : ℚ) / (history.length : ℚ) }]
      else preds)
    []
  (predictions.insertionSort probGE).take 3

/-- `CognitiveLayer.predictUserJourney`: returns the new persisted history
(the value written back under `skintwin_navigation`) and the prediction
list the function returns.  `nav` is the previously stored history and
`now` the `Date.now()` value. -/
def predictUserJourney (nav : List NavEntry) (currentPath : List Char) (now : Nat) :
    List NavEntry × List NavPrediction :=
  let pushed := nav ++ [{ path := currentPath, timestamp := now }]
  let trimmed := if pushed.length > 50 then pushed.drop (pushed.length - 50) else pushed
  (trimmed, generateNavigationPredictions trimmed)

/-! ## Cognitive layer: PLN reasoning simulation (cognitive-layer.js, `performReasoning`)

```js
performReasoning(query) {
    const knowledge = JSON.parse(localStorage.getItem('skintwin_knowledge') || '[]');
    const results = [];
    knowledge.forEach(node => {
        if (node.attributes.keywords.some(keyword =>
            query.toLowerCase().includes(keyword.toLowerCase()))) {
            results.push({
                node: node.name,
                relevance: Math.random() * 0.8 + 0.2, // Simulate reasoning
                attributes: node.attributes
            });
        }
    });
    return results.sort((a, b) => b.relevance - a.relevance);
}
```
-/

/-- An entity extracted by `extractEntities` (a type tag and a value). -/
structure KnowledgeEntity where
  entityType : List Char
  value : List Char
deriving DecidableEq

/-- A relationship extracted by `extractRelationships`. -/
structure KnowledgeRel where
  relType : List Char
  source : List Char
  target : List Char
  strength : ℚ
deriving DecidableEq

/-- The `attributes` object of a stored AtomSpace node (`sendToAtomSpace`). -/
structure AtomAttributes where
  url : List Char
  title : List Char
  domain : List Char
  keywords : List (List Char)
  entities : List KnowledgeEntity
  relationships : List KnowledgeRel
deriving DecidableEq

/-- A node as stored by `storeKnowledgeNode` under `skintwin_knowledge`. -/
structure AtomNode where
  name : List Char
  attributes : AtomAttributes
deriving DecidableEq

/-- One element of the result array `performReasoning` builds. -/
structure ReasoningResult where
  node : List Char
  relevance : ℚ
  attributes : AtomAttributes
deriving DecidableEq

/-- Lower-casing of an embedded JavaScript string. -/
def strToLower (s : List Char) : List Char := s.map Char.toLower

/-- `haystack.includes(needle)` on embedded strings: the needle occurs as a
contiguous substring of the haystack. -/
def strIncludes (haystack needle : List Char) : Bool :=
  match haystack with
  | [] => needle.isEmpty
  | _ :: rest => needle.isPrefixOf haystack || strIncludes rest needle

/-- The match test of `performReasoning`: some keyword of the node is,
case-insensitively, a substring of the query
(`query.toLowerCase().includes(keyword.toLowerCase())`). -/
def nodeMatchesQuery (query : List Char) (node : AtomNode) : Bool :=
  node.attributes.keywords.any
    (fun keyword => strIncludes (strToLower query) (strToLower keyword))

/-- The result records pushed for the matching nodes, in storage order; the
`i`-th pushed record draws `randomStream i` as its `Math.random()`-based
relevance score. -/
def scoreMatches (randomStream : Nat → ℚ) : Nat → List AtomNode → List ReasoningResult
  | _, [] => []
  | i, node :: rest =>
    { node := node.name, relevance := randomStream i * (8 / 10) + 2 / 10,
      attributes := node.attributes } :: scoreMatches randomStream (i + 1) rest

/-- Non-increasing comparison on relevance, the sort order of
`results.sort((a, b) => b.relevance - a.relevance)`. -/
def relevanceGE (a b : ReasoningResult) : Prop := b.relevance ≤ a.relevance

instance : DecidableRel relevanceGE := fun a b =>
  inferInstanceAs (Decidable (b.relevance ≤ a.relevance))

instance : IsTotal ReasoningResult relevanceGE :=
  ⟨fun a b => le_total b.relevance a.relevance⟩

instance : IsTrans ReasoningResult relevanceGE :=
  ⟨fun _ _ _ h1 h2 => le_trans h2 h1⟩

/-- `CognitiveLayer.performReasoning`: `knowledge` is the array stored
under `skintwin_knowledge` and `randomStream` the sequence of
`Math.random()` draws. -/
def performReasoning (knowledge : List AtomNode) (randomStream : Nat → ℚ)
    (query : List Char) : List ReasoningResult :=
  (scoreMatches randomStream 0 (knowledge.filter (nodeMatchesQuery query))).insertionSort
    relevanceGE

/-! ## Site builder: template substitution (build script, `processTemplate`)

```js
processTemplate(template, variables) {
    let html = template;
    Object.entries(variables).forEach(([key, value]) => {
        const regex = new RegExp(`\x7b\x7b${key}\x7d\x7d`, 'g');
        html = html.replace(regex, value);
    });
    return html;
}
```
`String.prototype.replace` with a global regex rewrites the leftmost,
non-overlapping occurrences in a single left-to-right scan; the text a
replacement inserts is not rescanned within that same pass.  At each
match the replacement string is inserted through the replacement-pattern
expansion of `GetSubstitution`: `$$` inserts a dollar sign, `$&` the
matched text, a dollar followed by a backquote the part of the subject
before the match, a dollar followed by a single quote the part after the
match; every other use of `$` (including `$n`, since the pattern has no
capture groups, and a lone trailing `$`) stays literal.
-/

/-- Character code 96, the backquote character. -/
def backquoteChar : Char := Char.ofNat 96

/-- The replacement-pattern expansion of `GetSubstitution` for a regex
without capture groups, applied to the replacement string at one match:
`matched` is the matched text, `before` and `after` the parts of the
subject around the match. -/
def expandReplacement (matched before after : List Char) : List Char → List Char
  | [] => []
  | [c] => if c = '$' then ['$'] else [c]
  | c :: d :: rest2 =>
    if c = '$' then
      if d = '$' then '$' :: expandReplacement matched before after rest2
      else if d = '&' then matched ++ expandReplacement matched before after rest2
      else if d = backquoteChar then before ++ expandReplacement matched before after rest2
      else if d = quoteChar1 then after ++ expandReplacement matched before after rest2
      else c :: d :: expandReplacement matched before after rest2
    else c :: expandReplacement matched before after (d :: rest2)

/-- One pass of global replacement with an explicit fuel (always called
with fuel at least the length of the remaining subject, which suffices:
each step consumes at least one character).  `full` is the whole subject
of the pass and `pos` the current scan position in it, so that each
match's inserted text can be computed by the replacement-pattern
expansion against the text before and after the match. -/
def replaceAllFuel (pattern replacement full : List Char) :
    Nat → Nat → List Char → List Char
  | 0, _, s => s
  | _ + 1, _, [] => []
  | fuel + 1, pos, c :: cs =>
    if pattern.isPrefixOf (c :: cs) then
      expandReplacement pattern (full.take pos) (full.drop (pos + pattern.length)) replacement
        ++ replaceAllFuel pattern replacement full fuel (pos + pattern.length)
            (cs.drop (pattern.length - 1))
    else
      c :: replaceAllFuel pattern replacement full fuel (pos + 1) cs

/-- Global replacement of every leftmost, non-overlapping occurrence of
`pattern`, scanning left to right and inserting the replacement string
through the replacement-pattern expansion: the embedding of
`subject.replace(new RegExp(pattern, 'g'), replacement)` for a pattern
with no regex metacharacters and no capture groups. -/
def replaceAll (pattern replacement subject : List Char) : List Char :=
  if pattern.isEmpty then subject
  else replaceAllFuel pattern replacement subject subject.length 0 subject

/-- The five template variables `buildPage` passes to `processTemplate`,
in the insertion order of the object literal (the order `Object.entries`
iterates them). -/
inductive TKey where
  | title
  | description
  | contentV
  | pathV
  | schemaType
deriving DecidableEq

/-- The JavaScript property name of a template variable. -/
def tkeyName : TKey → List Char
  | .title => "title".data
  | .description => "description".data
  | .contentV => "content".data
  | .pathV => "path".data
  | .schemaType => "schemaType".data

/-- The placeholder pattern built for a key by `new RegExp` in
`processTemplate`: two opening braces, the key name, two closing braces. -/
def placeholder (k : TKey) : List Char :=
  lbrace :: lbrace :: tkeyName k ++ [rbrace, rbrace]

/-- The `Object.entries` iteration order of the `variables` object literal
in `buildPage`. -/
def tkeyOrder : List TKey := [.title, .description, .contentV, .pathV, .schemaType]

/-- `SiteBuilder.processTemplate`: one sequential global-replacement pass
per variable, in `Object.entries` order. -/
def processTemplate (template : List Char) (vars : TKey → List Char) : List Char :=
  tkeyOrder.foldl (fun html k => replaceAll (placeholder k) (vars k) html) template

/-- A template dissected into literal text and placeholder occurrences. -/
inductive Chunk where
  | lit (s : List Char)
  | var (k : TKey)

/-- Reassembling a dissected template with the placeholders of a set of
already-substituted keys replaced by their values. -/
def renderChunks (σ : TKey → Option (List Char)) : List Chunk → List Char
  | [] => []
  | .lit s :: rest => s ++ renderChunks σ rest
  | .var k :: rest =>
    (match σ k with
     | some v => v
     | none => placeholder k) ++ renderChunks σ rest

/-- The template text itself: no key substituted yet. -/
def templateText (chunks : List Chunk) : List Char :=
  renderChunks (fun _ => none) chunks

/-- The simultaneous substitution the specification describes: every
placeholder occurrence replaced by its variable's value, all literal text
unchanged. -/
def simultaneousFill (vars : TKey → List Char) (chunks : List Chunk) : List Char :=
  renderChunks (fun k => some (vars k)) chunks

/-- Decidable overlap check: no occurrence of `p` can start strictly inside
`q` (at any index below `q.length`), whatever text follows `q`. -/
def overlapFree (p q : List Char) : Bool :=
  (List.range q.length).all fun i =>
    decide (p.take (q.length - i) ≠ (q.drop i).take p.length)

/-- Every literal chunk of the dissected template is free of opening
braces. -/
def chunkLitsBraceFree (chunks : List Chunk) : Bool :=
  chunks.all fun c =>
    match c with
    | .lit s => !(s.contains lbrace)
    | .var _ => true

/-- Every template variable's value is free of opening braces. -/
def varsBraceFree (vars : TKey → List Char) : Bool :=
  tkeyOrder.all fun k => !((vars k).contains lbrace)

/-- Every template variable's value is free of dollar signs, so its
replacement-pattern expansion at any match is the value itself. -/
def varsDollarFree (vars : TKey → List Char) : Bool :=
  tkeyOrder.all fun k => !((vars k).contains '$')

/-- The variable assignment of the C5 counterexample: the title's value is
itself the description placeholder. -/
def cascadeVars : TKey → List Char
  | .title => placeholder .description
  | .description => "D".data
  | _ => []

/-- Recording that one more key has been substituted, with value `v`. -/
def updVar (σ : TKey → Option (List Char)) (k : TKey) (v : List Char) :
    TKey → Option (List Char) :=
  fun k' => if k' = k then some v else σ k'

/-- A brace-free variable assignment used to witness the amended template
substitution claim on a concrete template. -/
def demoVars : TKey → List Char
  | .title => "SkinTwin".data
  | .description => "cognitive skincare".data
  | _ => []

/-! ## Site builder: frontmatter parsing (build script, `parseFrontmatter`)

```js
parseFrontmatter(content) {
    const frontmatterRegex = /^---\n([\s\S]*?)\n---\n([\s\S]*)$/;
    const match = content.match(frontmatterRegex);
    if (match) {
        const frontmatterText = match[1];
        const body = match[2];
        const frontmatter = {};
        frontmatterText.split('\n').forEach(line => {
            const colonIndex = line.indexOf(':');
            if (colonIndex > 0) {
                const key = line.substring(0, colonIndex).trim();
                const value = line.substring(colonIndex + 1).trim().replace(/^["']|["']$/g, '');
                frontmatter[key] = value;
            }
        });
        return { frontmatter, body };
    }
    return { frontmatter: {}, body: content };
}
```
The lazy group `([\s\S]*?)` makes the regex match the FIRST occurrence of
the closing delimiter; the anchored `^---\n` requires the opening
delimiter at the very start.
-/

/-- The anchored opening delimiter of a frontmatter block. -/
def fmOpen : List Char := "---\n".data

/-- The closing delimiter the lazy group stops at. -/
def fmDelim : List Char := "\n---\n".data

/-- Index of the first occurrence of `needle` in the haystack (the match
position of the regex engine's scan). -/
def findFirst (needle : List Char) : List Char → Option Nat
  | [] => if needle.isEmpty then some 0 else none
  | c :: cs =>
    if needle.isPrefixOf (c :: cs) then some 0
    else (findFirst needle cs).map (· + 1)

/-- `String.prototype.trim` on an embedded string. -/
def jsTrim (s : List Char) : List Char :=
  ((s.dropWhile Char.isWhitespace).reverse.dropWhile Char.isWhitespace).reverse

/-- The character class `["']` of the quote-stripping regex. -/
def isQuoteChar (c : Char) : Bool := c == quoteChar2 || c == quoteChar1

/-- `value.replace(/^["']|["']$/g, '')`: one leading quote character (when
present) and one trailing quote character (when still present) are
removed. -/
def stripQuotes (s : List Char) : List Char :=
  let afterLead :=
    match s with
    | c :: rest => if isQuoteChar c then rest else s
    | [] => []
  match afterLead.getLast? with
  | some c => if isQuoteChar c then afterLead.dropLast else afterLead
  | none => afterLead

/-- The entry one frontmatter line contributes: the first colon must sit at
a positive index; the key is the trimmed text before it and the value the
trimmed text after it with quotes stripped. -/
def parseFrontmatterLine (line : List Char) : Option (List Char × List Char) :=
  match line.findIdx? (· == ':') with
  | some colonIndex =>
    if 0 < colonIndex then
      some (jsTrim (line.take colonIndex),
        stripQuotes (jsTrim (line.drop (colonIndex + 1))))
    else none
  | none => none

/-- The body of the `forEach` loop: `frontmatter[key] = value` for a line
with an entry, nothing otherwise (the object is embedded as an association
list in assignment order). -/
def pushEntry (fm : List (List Char × List Char)) (line : List Char) :
    List (List Char × List Char) :=
  match parseFrontmatterLine line with
  | some entry => fm ++ [entry]
  | none => fm

/-- The `forEach` loop over the block's lines, building the `frontmatter`
object. -/
def parseFrontmatterBlock (text : List Char) : List (List Char × List Char) :=
  (text.splitOn '\n').foldl pushEntry []

/-- Lookup in an embedded JavaScript object: the latest assignment to the
key wins. -/
def objGet (fm : List (List Char × List Char)) (key : List Char) : Option (List Char) :=
  (fm.reverse.find? (fun kv => kv.1 == key)).map Prod.snd

/-- `SiteBuilder.parseFrontmatter`: the pair (frontmatter object, body). -/
def parseFrontmatter (content : List Char) :
    List (List Char × List Char) × List Char :=
  if fmOpen.isPrefixOf content then
    let afterOpen := content.drop 4
    match findFirst fmDelim afterOpen with
    | some i =>
      (parseFrontmatterBlock (afterOpen.take i), afterOpen.drop (i + 5))
    | none => ([], content)
  else ([], content)

/-! ## Site builder: the build pipeline (build script, `build`, `buildPage`)

```js
async build() {
    await fs.remove(this.publicDir);
    await fs.ensureDir(this.publicDir);
    await this.copyAssets();
    await this.buildPages();
    await this.generateSitemap();
    await this.generateRobots();
    await this.generateCognitiveIndex();
}
```
The build's effect on the filesystem is embedded as the trace of actions
it performs, in order; file reads (`fs.readFile`), the directory listing
(`fs.readdir`), the external `marked` markdown renderer and the clock are
supplied by an environment record.
-/

/-- One filesystem effect of the build. -/
inductive FsAction where
  | removeDir (path : List Char)
  | ensureDir (path : List Char)
  | copyDir (src dst : List Char)
  | writeFile (path : List Char) (content : List Char)

/-- `path.join` of a directory and one relative component. -/
def pjoin (a b : List Char) : List Char := a ++ '/' :: b

/-- The build environment: the constructor's four directories, the listing
of the pages directory, the file contents on disk, the external markdown
renderer, and the current time. -/
structure SiteEnv where
  publicDir : List Char
  contentDir : List Char
  templatesDir : List Char
  assetsDir : List Char
  pages : List (List Char)
  fileContent : List Char → List Char
  markedRender : List Char → List Char
  nowIso : List Char

/-- `siteConfig.baseUrl`. -/
def siteBaseUrl : List Char := "https://regima.site".data

/-- `siteConfig.title`. -/
def siteTitle : List Char := "RégimA Zone".data

/-- `siteConfig.description`. -/
def siteDescription : List Char :=
  "Advanced skincare solutions powered by cognitive architecture".data

/-- `a || b` on a possibly-absent string: the fallback is used when the
value is `undefined` or empty. -/
def jsOrStr (v : Option (List Char)) (dflt : List Char) : List Char :=
  match jsTruthy v with
  | some s => s
  | none => dflt

/-- `new Date().toISOString().split('T')[0]`. -/
def isoDate (nowIso : List Char) : List Char := nowIso.takeWhile (fun c => c != 'T')

/-- The `variables` object `buildPage` passes to `processTemplate`, built
from the page's frontmatter with the site-config fallbacks. -/
def pageVars (fm : List (List Char × List Char)) (htmlContent : List Char) :
    TKey → List Char
  | .title => jsOrStr (objGet fm "title".data) siteTitle
  | .description => jsOrStr (objGet fm "description".data) siteDescription
  | .contentV => htmlContent
  | .pathV => jsOrStr (objGet fm "path".data) "/".data
  | .schemaType => jsOrStr (objGet fm "schemaType".data) "WebPage".data

/-- The HTML `buildPage` writes for a page file: frontmatter parsing,
markdown rendering, template loading and template substitution. -/
def renderPage (env : SiteEnv) (pageFile : List Char) : List Char :=
  let content := env.fileContent (pjoin (pjoin env.contentDir "pages".data) pageFile)
  let parsed := parseFrontmatter content
  let htmlContent := env.markedRender parsed.2
  let template := env.fileContent (pjoin env.templatesDir "layout.html".data)
  processTemplate template (pageVars parsed.1 htmlContent)

/-- `path.basename(pageFile, '.md')` for a bare file name. -/
def pageBasename (pageFile : List Char) : List Char :=
  if ".md".data.isSuffixOf pageFile then pageFile.take (pageFile.length - 3) else pageFile

/-- `SiteBuilder.buildPage`: the actions performed for one page file —
`index.md` is written to `index.html` at the output root, any other page
to its own directory's `index.html` (created first). -/
def buildPage (env : SiteEnv) (pageFile : List Char) : List FsAction :=
  if pageFile = "index.md".data then
    [.writeFile (pjoin env.publicDir "index.html".data) (renderPage env pageFile)]
  else
    [.ensureDir (pjoin env.publicDir (pageBasename pageFile)),
     .writeFile (pjoin (pjoin env.publicDir (pageBasename pageFile)) "index.html".data)
       (renderPage env pageFile)]

/-- The sitemap template literal of `generateSitemap`, with the base URL
and the `new Date().toISOString().split('T')[0]` date interpolated. -/
def sitemapXml (baseUrl today : List Char) : List Char :=
  "<?xml version=\"1.0\" encoding=\"UTF-8\"?>\n<urlset xmlns=\"http://www.sitemaps.org/schemas/sitemap/0.9\"\n        xmlns:image=\"http://www.google.com/schemas/sitemap-image/1.1\">\n    <!-- Homepage -->\n    <url>\n        <loc>".data
    ++ baseUrl
    ++ "/</loc>\n        <lastmod>".data
    ++ today
    ++ "</lastmod>\n        <priority>1.0</priority>\n        <changefreq>weekly</changefreq>\n    </url>\n    \n    <!-- Main Pages -->\n    <url>\n        <loc>".data
    ++ baseUrl
    ++ "/products/</loc>\n        <lastmod>".data
    ++ today
    ++ "</lastmod>\n        <priority>0.9</priority>\n        <changefreq>weekly</changefreq>\n    </url>\n    \n    <url>\n        <loc>".data
    ++ baseUrl
    ++ "/about-us/</loc>\n        <lastmod>".data
    ++ today
    ++ "</lastmod>\n        <priority>0.8</priority>\n        <changefreq>monthly</changefreq>\n    </url>\n    \n    <url>\n        <loc>".data
    ++ baseUrl
    ++ "/contact-us/</loc>\n        <lastmod>".data
    ++ today
    ++ "</lastmod>\n        <priority>0.7</priority>\n        <changefreq>monthly</changefreq>\n    </url>\n    \n    <url>\n        <loc>".data
    ++ baseUrl
    ++ "/testimonials/</loc>\n        <lastmod>".data
    ++ today
    ++ "</lastmod>\n        <priority>0.7</priority>\n        <changefreq>weekly</changefreq>\n    </url>\n    \n    <url>\n        <loc>".data
    ++ baseUrl
    ++ "/faqs/</loc>\n        <lastmod>".data
    ++ today
    ++ "</lastmod>\n        <priority>0.6</priority>\n        <changefreq>monthly</changefreq>\n    </url>\n    \n    <url>\n        <loc>".data
    ++ baseUrl
    ++ "/blog/</loc>\n        <lastmod>".data
    ++ today
    ++ "</lastmod>\n        <priority>0.8</priority>\n        <changefreq>daily</changefreq>\n    </url>\n    \n    <!-- Product Categories -->\n    <url>\n        <loc>".data
    ++ baseUrl
    ++ "/products/anti-ageing/</loc>\n        <lastmod>".data
    ++ today
    ++ "</lastmod>\n        <priority>0.8</priority>\n        <changefreq>weekly</changefreq>\n    </url>\n    \n    <url>\n        <loc>".data
    ++ baseUrl
    ++ "/products/day-preperations/</loc>\n        <lastmod>".data
    ++ today
    ++ "</lastmod>\n        <priority>0.8</priority>\n        <changefreq>weekly</changefreq>\n    </url>\n    \n    <url>\n        <loc>".data
    ++ baseUrl
    ++ "/products/night-preparations/</loc>\n        <lastmod>".data
    ++ today
    ++ "</lastmod>\n        <priority>0.8</priority>\n        <changefreq>weekly</changefreq>\n    </url>\n    \n    <url>\n        <loc>".data
    ++ baseUrl
    ++ "/products/eye-care/</loc>\n        <lastmod>".data
    ++ today
    ++ "</lastmod>\n        <priority>0.8</priority>\n        <changefreq>weekly</changefreq>\n    </url>\n    \n    <url>\n        <loc>".data
    ++ baseUrl
    ++ "/products/in-salon-treatments/</loc>\n        <lastmod>".data
    ++ today
    ++ "</lastmod>\n        <priority>0.8</priority>\n        <changefreq>weekly</changefreq>\n    </url>\n    \n    <url>\n        <loc>".data
    ++ baseUrl
    ++ "/products/pigmentation/</loc>\n        <lastmod>".data
    ++ today
    ++ "</lastmod>\n        <priority>0.8</priority>\n        <changefreq>weekly</changefreq>\n    </url>\n    \n    <url>\n        <loc>".data
    ++ baseUrl
    ++ "/products/problem-skin/</loc>\n        <lastmod>".data
    ++ today
    ++ "</lastmod>\n        <priority>0.8</priority>\n        <changefreq>weekly</changefreq>\n    </url>\n    \n    <url>\n        <loc>".data
    ++ baseUrl
    ++ "/products/repairing/</loc>\n        <lastmod>".data
    ++ today
    ++ "</lastmod>\n        <priority>0.8</priority>\n        <changefreq>weekly</changefreq>\n    </url>\n    \n    <url>\n        <loc>".data
    ++ baseUrl
    ++ "/products/cleansing-toning/</loc>\n        <lastmod>".data
    ++ today
    ++ "</lastmod>\n        <priority>0.8</priority>\n        <changefreq>weekly</changefreq>\n    </url>\n    \n    <url>\n        <loc>".data
    ++ baseUrl
    ++ "/products/classic/</loc>\n        <lastmod>".data
    ++ today
    ++ "</lastmod>\n        <priority>0.8</priority>\n        <changefreq>weekly</changefreq>\n    </url>\n    \n    <!-- Portfolio Items -->\n    <url>\n        <loc>".data
    ++ baseUrl
    ++ "/portfolio/zone-scar-repair-forte-serum/</loc>\n        <lastmod>".data
    ++ today
    ++ "</lastmod>\n        <priority>0.7</priority>\n        <changefreq>monthly</changefreq>\n    </url>\n    \n    <url>\n        <loc>".data
    ++ baseUrl
    ++ "/portfolio/epi-genes-xpress/</loc>\n        <lastmod>".data
    ++ today
    ++ "</lastmod>\n        <priority>0.7</priority>\n        <changefreq>monthly</changefreq>\n    </url>\n    \n    <url>\n        <loc>".data
    ++ baseUrl
    ++ "/portfolio/zone-quantum-elast-collagen-revival/</loc>\n        <lastmod>".data
    ++ today
    ++ "</lastmod>\n        <priority>0.7</priority>\n        <changefreq>monthly</changefreq>\n    </url>\n    \n    <!-- Cognitive Architecture Pages -->\n    <url>\n        <loc>".data
    ++ baseUrl
    ++ "/cognitive/knowledge-graph/</loc>\n        <lastmod>".data
    ++ today
    ++ "</lastmod>\n        <priority>0.5</priority>\n        <changefreq>daily</changefreq>\n    </url>\n    \n    <url>\n        <loc>".data
    ++ baseUrl
    ++ "/cognitive/api/</loc>\n        <lastmod>".data
    ++ today
    ++ "</lastmod>\n        <priority>0.4</priority>\n        <changefreq>weekly</changefreq>\n    </url>\n</urlset>".data

/-- The robots.txt template literal of `generateRobots`, with the base
URL interpolated. -/
def robotsTxt (baseUrl : List Char) : List Char :=
  "User-agent: *\nAllow: /\n\n# Sitemap\nSitemap: ".data
    ++ baseUrl
    ++ "/sitemap.xml\n\n# Cognitive Architecture - Allow crawling for knowledge extraction\nAllow: /cognitive/\nAllow: /assets/js/cognitive-layer.js\n\n# Product images for visual AI\nAllow: /assets/images/products/\nAllow: /assets/images/categories/\n\n# Crawl delay for cognitive processing\nCrawl-delay: 1\n\n# Special directives for AI/ML crawlers\nUser-agent: GPTBot\nAllow: /\n\nUser-agent: ChatGPT-User\nAllow: /\n\nUser-agent: Google-Extended\nAllow: /\n\n# Block admin areas\nDisallow: /admin/\nDisallow: /wp-admin/\nDisallow: /wp-includes/\n\n# Block temporary files\nDisallow: /tmp/\nDisallow: /*.tmp$\nDisallow: /*.temp$".data

/-- `JSON.stringify(cognitiveIndex, null, 2)` of the knowledge index
object in `generateCognitiveIndex`, with `new Date().toISOString()`
interpolated. -/
def cognitiveIndexText (nowIso : List Char) : List Char :=
  "\x7b\n  \"version\": \"1.0\",\n  \"generatedAt\": \"".data
    ++ nowIso
    ++ "\",\n  \"architecture\": \"SkinTwin\",\n  \"components\": \x7b\n    \"atomspace\": \"Knowledge representation layer\",\n    \"pln\": \"Probabilistic logic networks for reasoning\",\n    \"moses\": \"Pattern mining and optimization\",\n    \"esn\": \"Echo state networks for temporal prediction\"\n  \x7d,\n  \"domain\": \"dermatology\",\n  \"knowledge\": \x7b\n    \"entities\": [\n      \"skincare\",\n      \"anti-ageing\",\n      \"acne\",\n      \"pigmentation\",\n      \"wrinkles\",\n      \"moisturizer\",\n      \"serum\",\n      \"cleanser\",\n      \"sunscreen\",\n      \"retinol\",\n      \"vitamin-c\",\n      \"hyaluronic-acid\",\n      \"collagen\",\n      \"peptides\"\n    ],\n    \"relationships\": [\n      \x7b\n        \"source\": \"retinol\",\n        \"target\": \"anti-ageing\",\n        \"type\": \"treats\",\n        \"strength\": 0.9\n      \x7d,\n      \x7b\n        \"source\": \"vitamin-c\",\n        \"target\": \"pigmentation\",\n        \"type\": \"treats\",\n        \"strength\": 0.8\n      \x7d,\n      \x7b\n        \"source\": \"hyaluronic-acid\",\n        \"target\": \"hydration\",\n        \"type\": \"provides\",\n        \"strength\": 0.95\n      \x7d,\n      \x7b\n        \"source\": \"sunscreen\",\n        \"target\": \"prevention\",\n        \"type\": \"enables\",\n        \"strength\": 0.9\n      \x7d\n    ],\n    \"categories\": [\n      \"anti-ageing\",\n      \"day-preparations\",\n      \"night-preparations\",\n      \"eye-care\",\n      \"in-salon-treatments\",\n      \"pigmentation\",\n      \"problem-skin\",\n      \"repairing\",\n      \"cleansing-toning\",\n      \"classic\"\n    ]\n  \x7d,\n  \"inference\": \x7b\n    \"rules\": [\n      \"IF age > 30 AND concern = wrinkles THEN recommend anti-ageing\",\n      \"IF skin-type = oily AND concern = acne THEN recommend problem-skin\",\n      \"IF concern = pigmentation THEN recommend vitamin-c + sunscreen\"\n    ]\n  \x7d,\n  \"api\": \x7b\n    \"endpoint\": \"/cognitive/api/\",\n    \"methods\": [\n      \"GET\",\n      \"POST\"\n    ],\n    \"capabilities\": [\n      \"search\",\n      \"recommend\",\n      \"analyze\",\n      \"predict\"\n    ]\n  \x7d\n\x7d".data

/-- The API documentation page literal of `generateCognitiveIndex`. -/
def apiDocHtml : List Char :=
  "<!DOCTYPE html>\n<html lang=\"en\">\n<head>\n    <meta charset=\"UTF-8\">\n    <meta name=\"viewport\" content=\"width=device-width, initial-scale=1.0\">\n    <title>SkinTwin Cognitive API - RégimA</title>\n    <link rel=\"stylesheet\" href=\"/assets/css/main.css\">\n</head>\n<body>\n    <div class=\"content-section\">\n        <h1>🧠 SkinTwin Cognitive Architecture API</h1>\n        <p>Access the cognitive layer powering RegimA\x27s intelligent skincare recommendations.</p>\n        \n        <h2>Knowledge Graph Access</h2>\n        <pre><code>GET /cognitive/index.json</code></pre>\n        <p>Returns the complete knowledge graph structure and inference rules.</p>\n        \n        <h2>Product Recommendation</h2>\n        <pre><code>POST /cognitive/api/recommend\n\x7b\n  \"skinType\": \"oily\",\n  \"concerns\": [\"acne\", \"pigmentation\"],\n  \"age\": 28\n\x7d</code></pre>\n        \n        <h2>Knowledge Search</h2>\n        <pre><code>GET /cognitive/api/search?query=anti-ageing</code></pre>\n        \n        <p>This API enables integration with the SkinTwin cognitive architecture for advanced skincare personalization.</p>\n    </div>\n</body>\n</html>".data

/-- The actions of `generateCognitiveIndex`. -/
def cognitiveIndexActions (env : SiteEnv) : List FsAction :=
  [.ensureDir (pjoin env.publicDir "cognitive".data),
   .writeFile (pjoin (pjoin env.publicDir "cognitive".data) "index.json".data)
     (cognitiveIndexText env.nowIso),
   .writeFile (pjoin (pjoin env.publicDir "cognitive".data) "api.html".data) apiDocHtml]

/-- `SiteBuilder.build`: the full action trace of one build run. -/
def build (env : SiteEnv) : List FsAction :=
  [.removeDir env.publicDir, .ensureDir env.publicDir,
   .copyDir env.assetsDir (pjoin env.publicDir "assets".data)]
  ++ ((env.pages.filter (fun p => ".md".data.isSuffixOf p)).flatMap (buildPage env))
  ++ [.writeFile (pjoin env.publicDir "sitemap.xml".data)
        (sitemapXml siteBaseUrl (isoDate env.nowIso)),
      .writeFile (pjoin env.publicDir "robots.txt".data) (robotsTxt siteBaseUrl)]
  ++ cognitiveIndexActions env

/-- The path a filesystem action creates or writes (for a copy, its
destination). -/
def actionTarget : FsAction → List Char
  | .removeDir p => p
  | .ensureDir p => p
  | .copyDir _ dst => dst
  | .writeFile p _ => p

/-- The action's target is the given directory itself or lies beneath
it. -/
def actionInsideDir (dir : List Char) (a : FsAction) : Prop :=
  actionTarget a = dir ∨ ∃ rest, actionTarget a = dir ++ '/' :: rest

/-- A concrete environment for witnessing the build-pipeline claim. -/
def demoSiteEnv : SiteEnv :=
  { publicDir := "public".data
    contentDir := "content".data
    templatesDir := "templates".data
    assetsDir := "assets".data
    pages := ["about-us.md".data, "index.md".data, "notes.txt".data]
    fileContent := fun _ => []
    markedRender := fun s => s
    nowIso := "2025-01-01T00:00:00.000Z".data }


/-! ## Theorems -/

/-- A dollar-free replacement string expands to itself at any match. -/
theorem expandReplacement_of_no_dollar (matched before after : List Char) :
    ∀ v : List Char, v.contains '$' = false →
      expandReplacement matched before after v = v := by
  intro v
  induction v with
  | nil => intro _; rfl
  | cons c rest ih =>
    intro h
    have hc : c ≠ '$' := by
      intro he
      have hmem : ('$' : Char) ∈ c :: rest := by
        rw [he]
        exact List.mem_cons_self _ _
      have htrue : (c :: rest).contains '$' = true := List.elem_eq_true_of_mem hmem
      rw [h] at htrue
      exact Bool.false_ne_true htrue
    have hrest : rest.contains '$' = false := by
      cases hy : rest.contains '$' with
      | false => rfl
      | true =>
        exfalso
        have hmem : ('$' : Char) ∈ rest := List.elem_iff.mp hy
        have hmem2 : ('$' : Char) ∈ c :: rest := List.mem_cons_of_mem _ hmem
        have htrue : (c :: rest).contains '$' = true := List.elem_eq_true_of_mem hmem2
        rw [h] at htrue
        exact Bool.false_ne_true htrue
    cases rest with
    | nil => simp [expandReplacement, if_neg hc]
    | cons d rest2 =>
      simp only [expandReplacement, if_neg hc]
      rw [ih hrest]

/-- With a dollar-free replacement the scan is independent of the recorded
subject and scan position: no match consults the surrounding text. -/
theorem replaceAllFuel_pos_irrel (p v : List Char) (hv : v.contains '$' = false) :
    ∀ (fuel : Nat) (full full' : List Char) (pos pos' : Nat) (s : List Char),
      replaceAllFuel p v full fuel pos s = replaceAllFuel p v full' fuel pos' s := by
  intro fuel
  induction fuel with
  | zero => intro full full' pos pos' s; rfl
  | succ n ih =>
    intro full full' pos pos' s
    cases s with
    | nil => rfl
    | cons c cs =>
      simp only [replaceAllFuel]
      by_cases hp : p.isPrefixOf (c :: cs) = true
      · simp only [hp, if_true]
        rw [expandReplacement_of_no_dollar _ _ _ _ hv,
          expandReplacement_of_no_dollar _ _ _ _ hv, ih]
      · simp only [hp, if_false, Bool.false_eq_true]
        rw [ih]

/-- Fuel irrelevance for the replacement scan: any fuel at least the length
of the remaining subject gives the same result. -/
theorem replaceAllFuel_congr (p v full : List Char) :
    ∀ f1 f2 : Nat, ∀ pos : Nat, ∀ s : List Char, s.length ≤ f1 → s.length ≤ f2 →
      replaceAllFuel p v full f1 pos s = replaceAllFuel p v full f2 pos s := by
  intro f1
  induction f1 with
  | zero =>
    intro f2 pos s h1 _
    have hs : s = [] := List.eq_nil_of_length_eq_zero (Nat.le_zero.mp h1)
    subst hs
    cases f2 <;> rfl
  | succ n ih =>
    intro f2 pos s h1 h2
    cases s with
    | nil => cases f2 <;> rfl
    | cons c cs =>
      cases f2 with
      | zero => simp at h2
      | succ m =>
        simp only [replaceAllFuel]
        by_cases hp : p.isPrefixOf (c :: cs) = true
        · simp only [hp, if_true]
          congr 1
          apply ih
          · have hd := List.length_drop (p.length - 1) cs
            simp only [List.length_cons] at h1
            omega
          · have hd := List.length_drop (p.length - 1) cs
            simp only [List.length_cons] at h2
            omega
        · simp only [hp, if_false, Bool.false_eq_true]
          congr 1
          apply ih
          · simp only [List.length_cons] at h1; omega
          · simp only [List.length_cons] at h2; omega

/-- Replacement in the empty subject yields the empty string. -/
theorem replaceAll_nil (p v : List Char) : replaceAll p v [] = [] := by
  unfold replaceAll
  split <;> rfl

/-- When the pattern does not match at the head, the scan keeps the head
character and continues (for a dollar-free replacement the shifted scan
coordinates are irrelevant). -/
theorem replaceAll_cons_nomatch (p v : List Char) (hv : v.contains '$' = false)
    (c : Char) (cs : List Char)
    (h : p.isPrefixOf (c :: cs) = false) :
    replaceAll p v (c :: cs) = c :: replaceAll p v cs := by
  have hp : p.isEmpty = false := by
    cases p with
    | nil => simp [List.isPrefixOf] at h
    | cons a l => rfl
  unfold replaceAll
  simp only [hp, Bool.false_eq_true, if_false, List.length_cons]
  simp only [replaceAllFuel, h, Bool.false_eq_true, if_false]
  congr 1
  exact replaceAllFuel_pos_irrel p v hv cs.length (c :: cs) cs (0 + 1) 0 cs

/-- When the pattern matches at the head, the scan emits the expanded
replacement — the replacement itself, being dollar-free — and continues
after the matched portion. -/
theorem replaceAll_of_isPrefixOf (p v : List Char) (hv : v.contains '$' = false)
    (s : List Char) (hne : p ≠ [])
    (h : p.isPrefixOf s = true) :
    replaceAll p v s = v ++ replaceAll p v (s.drop p.length) := by
  cases s with
  | nil =>
    exfalso
    apply hne
    have := List.isPrefixOf_iff_prefix.mp h
    exact List.prefix_nil.mp this
  | cons c cs =>
    have hp : p.isEmpty = false := by
      cases p with
      | nil => exact absurd rfl hne
      | cons a l => rfl
    obtain ⟨a, l, rfl⟩ : ∃ a l, p = a :: l := by
      cases p with
      | nil => exact absurd rfl hne
      | cons a l => exact ⟨a, l, rfl⟩
    unfold replaceAll
    simp only [hp, Bool.false_eq_true, if_false, List.length_cons]
    simp only [replaceAllFuel, h, if_true]
    congr 1
    · exact expandReplacement_of_no_dollar _ _ _ _ hv
    · simp only [List.length_cons, List.drop_succ_cons, Nat.add_sub_cancel]
      rw [replaceAllFuel_pos_irrel (a :: l) v hv cs.length (c :: cs) (cs.drop l.length)
        (0 + (l.length + 1)) 0 (cs.drop l.length)]
      apply replaceAllFuel_congr
      · rw [List.length_drop]; omega
      · exact le_refl _

/-- A stretch of text in which no occurrence of the pattern can start is
copied verbatim by the scan. -/
theorem replaceAll_append_of_no_occ (p v : List Char) (hv : v.contains '$' = false)
    (_hne : p ≠ []) :
    ∀ s t : List Char,
      (∀ i, i < s.length → p.isPrefixOf (s.drop i ++ t) = false) →
      replaceAll p v (s ++ t) = s ++ replaceAll p v t := by
  intro s
  induction s with
  | nil => intro t _; simp
  | cons c s' ih =>
    intro t hno
    have h0 : p.isPrefixOf (c :: (s' ++ t)) = false := by
      have := hno 0 (by simp)
      simpa using this
    rw [List.cons_append, replaceAll_cons_nomatch p v hv _ _ h0,
      ih t (fun i hi => by
        have := hno (i + 1) (by simp only [List.length_cons]; omega)
        simpa using this)]
    rfl

/-- A prefix of a concatenation agrees with the first part on their common
length. -/
theorem take_eq_of_isPrefixOf_append (p w r : List Char)
    (h : p.isPrefixOf (w ++ r) = true) :
    p.take w.length = w.take p.length := by
  have hpre : p <+: w ++ r := List.isPrefixOf_iff_prefix.mp h
  have hp : p = (w ++ r).take p.length := List.prefix_iff_eq_take.mp hpre
  calc p.take w.length
      = ((w ++ r).take p.length).take w.length := by rw [← hp]
    _ = (w ++ r).take (min w.length p.length) := List.take_take _ _ _
    _ = w.take (min w.length p.length) :=
        List.take_append_of_le_length (Nat.min_le_left _ _)
    _ = w.take p.length := by
        rcases le_total p.length w.length with hc | hc
        · rw [min_eq_right hc]
        · rw [min_eq_left hc, List.take_length, List.take_of_length_le hc]

/-- The overlap check is sound: when `overlapFree p q` holds, no occurrence
of `p` starts strictly inside `q`, whatever text follows `q`. -/
theorem no_occ_of_overlapFree (p q : List Char) (h : overlapFree p q = true) :
    ∀ i, i < q.length → ∀ r, p.isPrefixOf (q.drop i ++ r) = false := by
  intro i hi r
  cases hb : p.isPrefixOf (q.drop i ++ r) with
  | false => rfl
  | true =>
    exfalso
    have heq := take_eq_of_isPrefixOf_append p (q.drop i) r hb
    rw [List.length_drop] at heq
    have hall := List.all_eq_true.mp h i (List.mem_range.mpr hi)
    rw [decide_eq_true_iff] at hall
    exact hall heq

/-- No occurrence of a pattern opening with a brace can start inside
brace-free text. -/
theorem no_occ_of_braceFree (p' s t : List Char)
    (hs : s.contains lbrace = false) :
    ∀ i, i < s.length → (lbrace :: p').isPrefixOf (s.drop i ++ t) = false := by
  intro i hi
  cases hb : (lbrace :: p').isPrefixOf (s.drop i ++ t) with
  | false => rfl
  | true =>
    exfalso
    obtain ⟨hd, tl, hdt⟩ : ∃ hd tl, s.drop i = hd :: tl := by
      cases hsd : s.drop i with
      | nil =>
        exfalso
        have := List.length_drop i s
        rw [hsd] at this
        simp at this
        omega
      | cons hd tl => exact ⟨hd, tl, rfl⟩
    rw [hdt, List.cons_append] at hb
    simp only [List.isPrefixOf, Bool.and_eq_true, beq_iff_eq] at hb
    have hmem : hd ∈ s := List.drop_subset i s (hdt ▸ List.mem_cons_self hd tl)
    rw [← hb.1] at hmem
    have htrue : s.contains lbrace = true := List.elem_eq_true_of_mem hmem
    rw [hs] at htrue
    exact Bool.false_ne_true htrue

/-- Placeholder patterns of distinct keys cannot overlap: no occurrence of
one key's placeholder starts inside another key's placeholder. -/
theorem overlapFree_placeholder (k k' : TKey) (h : k ≠ k') :
    overlapFree (placeholder k) (placeholder k') = true := by
  cases k <;> cases k' <;> first | exact absurd rfl h | decide

/-- Updating a substitution with a brace-free value preserves
brace-freeness of all substituted values. -/
theorem updVar_braceFree (σ : TKey → Option (List Char)) (k : TKey) (v : List Char)
    (hσ : ∀ k' w, σ k' = some w → w.contains lbrace = false)
    (hv : v.contains lbrace = false) :
    ∀ k' w, updVar σ k v k' = some w → w.contains lbrace = false := by
  intro k' w hw
  by_cases hk : k' = k
  · simp only [updVar, hk, if_true, Option.some.injEq] at hw
    rw [← hw]
    exact hv
  · simp only [updVar, hk, if_false] at hw
    exact hσ k' w hw

/-- One global-replacement pass over a dissected template substitutes
exactly the placeholders of the processed key and leaves every other chunk
unchanged, provided the literal text and the already-substituted values
contain no opening brace. -/
theorem replacePass (k : TKey) (v : List Char) (hv : v.contains '$' = false)
    (σ : TKey → Option (List Char)) :
    ∀ chunks : List Chunk,
      (∀ s, Chunk.lit s ∈ chunks → s.contains lbrace = false) →
      (∀ k' w, σ k' = some w → w.contains lbrace = false) →
      σ k = none →
      replaceAll (placeholder k) v (renderChunks σ chunks)
        = renderChunks (updVar σ k v) chunks := by
  intro chunks
  induction chunks with
  | nil =>
    intro _ _ _
    exact replaceAll_nil _ _
  | cons c rest ih =>
    intro hlits hσ hk
    have hpne : placeholder k ≠ [] := by simp [placeholder]
    have hrec := ih (fun s' hs' => hlits s' (List.mem_cons_of_mem _ hs')) hσ hk
    cases c with
    | lit s =>
      have hs : s.contains lbrace = false := hlits s (List.mem_cons_self _ _)
      simp only [renderChunks]
      rw [replaceAll_append_of_no_occ _ v hv hpne s _
        (fun i hi => no_occ_of_braceFree _ s _ hs i hi), hrec]
    | var k' =>
      by_cases hkk : k' = k
      · subst hkk
        simp only [renderChunks, hk, updVar, if_pos rfl]
        have hpref : (placeholder k').isPrefixOf
            (placeholder k' ++ renderChunks σ rest) = true :=
          List.isPrefixOf_iff_prefix.mpr (List.prefix_append _ _)
        rw [replaceAll_of_isPrefixOf _ v hv _ hpne hpref, List.drop_left, hrec]
        simp
      · cases hσk : σ k' with
        | none =>
          simp only [renderChunks, hσk, updVar, if_neg hkk]
          rw [replaceAll_append_of_no_occ _ v hv hpne (placeholder k') _
            (fun i hi => no_occ_of_overlapFree _ _
              (overlapFree_placeholder k k' (fun he => hkk he.symm)) i hi _), hrec]
        | some w =>
          have hw : w.contains lbrace = false := hσ k' w hσk
          simp only [renderChunks, hσk, updVar, if_neg hkk]
          rw [replaceAll_append_of_no_occ _ v hv hpne w _
            (fun i hi => no_occ_of_braceFree _ w _ hw i hi), hrec]

/-- C5 counterexample: on the template consisting of the single
placeholder of `title`, with the title variable's value being the
description placeholder and the description variable's value being `D`,
the sequential passes of `processTemplate` rewrite the freshly inserted
value again, so the result is not the template with each placeholder
occurrence replaced by its variable's value (which would leave the
inserted description placeholder untouched). -/
theorem processTemplate_cascades :
    processTemplate (templateText [Chunk.var TKey.title]) cascadeVars
      ≠ simultaneousFill cascadeVars [Chunk.var TKey.title] := by
  decide

/-- C5 (amended): `processTemplate` applies the five global replacements
sequentially in the order title, description, content, path, schemaType,
so a placeholder contained in a substituted value is itself rewritten by a
later pass, and each insertion goes through the replacement-pattern
expansion, which rewrites `$$`, `$&` and the dollar-backquote and
dollar-quote patterns inside a value; when neither the template's literal
text nor any variable's value contains an opening brace character and no
value contains a dollar sign, the result is exactly the template with
every occurrence of each placeholder replaced by the corresponding
variable's value and all text outside the placeholders unchanged. -/
theorem processTemplate_simultaneous (chunks : List Chunk) (vars : TKey → List Char)
    (hlits : chunkLitsBraceFree chunks = true)
    (hvars : varsBraceFree vars = true)
    (hdollars : varsDollarFree vars = true) :
    processTemplate (templateText chunks) vars = simultaneousFill vars chunks := by
  have hlits' : ∀ s, Chunk.lit s ∈ chunks → s.contains lbrace = false := by
    intro s hs
    have := List.all_eq_true.mp hlits _ hs
    simpa using this
  have hv : ∀ k : TKey, (vars k).contains lbrace = false := by
    intro k
    have hmem : k ∈ tkeyOrder := by cases k <;> simp [tkeyOrder]
    have := List.all_eq_true.mp hvars k hmem
    simpa using this
  have hd : ∀ k : TKey, (vars k).contains '$' = false := by
    intro k
    have hmem : k ∈ tkeyOrder := by cases k <;> simp [tkeyOrder]
    have := List.all_eq_true.mp hdollars k hmem
    simpa using this
  have hσ0 : ∀ k' w, (fun _ : TKey => (none : Option (List Char))) k' = some w →
      w.contains lbrace = false := by
    intro k' w hw
    simp at hw
  have hσ1 := updVar_braceFree _ TKey.title (vars TKey.title) hσ0 (hv TKey.title)
  have hσ2 := updVar_braceFree _ TKey.description (vars TKey.description) hσ1
    (hv TKey.description)
  have hσ3 := updVar_braceFree _ TKey.contentV (vars TKey.contentV) hσ2 (hv TKey.contentV)
  have hσ4 := updVar_braceFree _ TKey.pathV (vars TKey.pathV) hσ3 (hv TKey.pathV)
  have h1 := replacePass TKey.title (vars TKey.title) (hd TKey.title) (fun _ => none) chunks hlits' hσ0 rfl
  have h2 := replacePass TKey.description (vars TKey.description) (hd TKey.description) _ chunks hlits' hσ1
    (by simp [updVar])
  have h3 := replacePass TKey.contentV (vars TKey.contentV) (hd TKey.contentV) _ chunks hlits' hσ2
    (by simp [updVar])
  have h4 := replacePass TKey.pathV (vars TKey.pathV) (hd TKey.pathV) _ chunks hlits' hσ3
    (by simp [updVar])
  have h5 := replacePass TKey.schemaType (vars TKey.schemaType) (hd TKey.schemaType) _ chunks hlits' hσ4
    (by simp [updVar])
  have hfull : updVar (updVar (updVar (updVar (updVar (fun _ => none)
      TKey.title (vars TKey.title)) TKey.description (vars TKey.description))
      TKey.contentV (vars TKey.contentV)) TKey.pathV (vars TKey.pathV))
      TKey.schemaType (vars TKey.schemaType) = fun k => some (vars k) := by
    funext k
    cases k <;> simp [updVar]
  calc processTemplate (templateText chunks) vars
      = replaceAll (placeholder TKey.schemaType) (vars TKey.schemaType)
          (replaceAll (placeholder TKey.pathV) (vars TKey.pathV)
            (replaceAll (placeholder TKey.contentV) (vars TKey.contentV)
              (replaceAll (placeholder TKey.description) (vars TKey.description)
                (replaceAll (placeholder TKey.title) (vars TKey.title)
                  (renderChunks (fun _ => none) chunks))))) := by
        simp [processTemplate, tkeyOrder, templateText]
    _ = simultaneousFill vars chunks := by
        rw [h1, h2, h3, h4, h5, hfull]
        rfl

/-- C5 witness: concrete evaluation of the amended claim on the template
`title: ` + title placeholder + ` — ` + description placeholder with
brace-free variable values. -/
theorem processTemplate_simultaneous_witness :
    processTemplate (templateText
        [Chunk.lit "title: ".data, Chunk.var TKey.title,
         Chunk.lit " - ".data, Chunk.var TKey.description]) demoVars
      = simultaneousFill demoVars
        [Chunk.lit "title: ".data, Chunk.var TKey.title,
         Chunk.lit " - ".data, Chunk.var TKey.description] :=
  processTemplate_simultaneous
    [Chunk.lit "title: ".data, Chunk.var TKey.title,
     Chunk.lit " - ".data, Chunk.var TKey.description] demoVars
    (by decide) (by decide) (by decide)

/-- Helper: the score-assignment pass only decorates each matching node
with a relevance value; projecting the scores away recovers the nodes. -/
theorem scoreMatches_map_proj (randomStream : Nat → ℚ) :
    ∀ (i : Nat) (l : List AtomNode),
      (scoreMatches randomStream i l).map (fun r => (r.node, r.attributes))
        = l.map (fun n => (n.name, n.attributes))
  | _, [] => rfl
  | i, _ :: rest => by
    simp [scoreMatches, scoreMatches_map_proj randomStream (i + 1) rest]

/-- C3: for every stored knowledge list, random draw sequence and query,
`performReasoning` returns exactly the stored nodes having at least one
keyword that is, case-insensitively, a substring of the query (a
permutation of the single filtering pass over the stored list), and the
returned list is sorted in non-increasing order of its relevance scores. -/
theorem performReasoning_matches_and_sorted (knowledge : List AtomNode)
    (randomStream : Nat → ℚ) (query : List Char) :
    ((performReasoning knowledge randomStream query).map (fun r => (r.node, r.attributes))).Perm
      ((knowledge.filter (nodeMatchesQuery query)).map (fun n => (n.name, n.attributes))) ∧
    List.Sorted relevanceGE (performReasoning knowledge randomStream query) := by
  constructor
  · have hperm :=
      List.perm_insertionSort relevanceGE
        (scoreMatches randomStream 0 (knowledge.filter (nodeMatchesQuery query)))
    have := hperm.map (fun r => (r.node, r.attributes))
    rw [scoreMatches_map_proj] at this
    exact this
  · exact List.sorted_insertionSort relevanceGE _

/-- C8: on every path under one of the protected mounts `/v1/`, `/agents/`,
`/data/`, `/tools/`: when no (truthy) API key is present in the
`X-API-Key` header or the `apiKey` query parameter the gateway responds
401; when a key is present but fails validation it responds 403; and in
both cases the response is the same whatever the route handler is, so the
handler is never invoked. -/
theorem protected_routes_auth (path : List Char) (headerKey queryKey : Option (List Char))
    (hprot : isProtectedPath path = true) :
    (extractApiKey headerKey queryKey = none →
      ∀ handler, routeRequest path headerKey queryKey handler = missingKeyResponse ∧
        (routeRequest path headerKey queryKey handler).status = 401) ∧
    (∀ k, extractApiKey headerKey queryKey = some k → validateApiKey k = false →
      ∀ handler, routeRequest path headerKey queryKey handler = invalidKeyResponse ∧
        (routeRequest path headerKey queryKey handler).status = 403) := by
  constructor
  · intro hnone handler
    simp [routeRequest, hprot, authenticateRequest, hnone, missingKeyResponse]
  · intro k hsome hbad handler
    simp [routeRequest, hprot, authenticateRequest, hsome, hbad, invalidKeyResponse]

/-- C8 witness: a request to `/v1/openai/chat/completions` with no key at
all is answered 401, and one with the invalid header key `regima_short` is
answered 403, with a concrete handler that is provably not consulted. -/
theorem protected_routes_auth_witness :
    (routeRequest "/v1/openai/chat/completions".data none none
        (fun _ => pendingResponse "unreachable".data)).status = 401 ∧
    (routeRequest "/v1/openai/chat/completions".data (some "regima_short".data) none
        (fun _ => pendingResponse "unreachable".data)).status = 403 := by
  constructor
  · exact ((protected_routes_auth "/v1/openai/chat/completions".data none none
      (by decide)).1 (by decide) (fun _ => pendingResponse "unreachable".data)).2
  · exact ((protected_routes_auth "/v1/openai/chat/completions".data
      (some "regima_short".data) none (by decide)).2 "regima_short".data
      (by decide) (by decide) (fun _ => pendingResponse "unreachable".data)).2

/-- C1 counterexample: the key `regima_x` begins with the prefix `regima_`
yet `validateApiKey` rejects it (its length is not above 20), so acceptance
is not decided by the prefix match alone. -/
theorem validateApiKey_not_prefix_only :
    ¬ (validateApiKey "regima_x".data = true ↔ regimaKeyMarker.isPrefixOf "regima_x".data = true) := by
  decide

/-- C1 (amended): `validateApiKey` accepts a key if and only if the key
begins with the prefix `regima_` and moreover has length greater than 20. -/
theorem validateApiKey_iff_prefix_and_length (apiKey : List Char) :
    validateApiKey apiKey = true ↔
      (regimaKeyMarker.isPrefixOf apiKey = true ∧ 20 < apiKey.length) := by
  simp [validateApiKey]

/-- C2: each of the ten placeholder handlers produces its constant
`implementation pending` JSON response; for any two requests, with
arbitrary bodies, headers and query strings, the responses are identical,
so the response does not depend on the request. -/
theorem placeholder_handlers_constant (r1 r2 : GatewayRequest) :
    handleAzureOpenAIChat r1 = handleAzureOpenAIChat r2 ∧
    handleCognitiveAnalysis r1 = handleCognitiveAnalysis r2 ∧
    handleDermatologyAssistant r1 = handleDermatologyAssistant r2 ∧
    handleProductAdvisor r1 = handleProductAdvisor r2 ∧
    handleVectorSearch r1 = handleVectorSearch r2 ∧
    handleKnowledgeQuery r1 = handleKnowledgeQuery r2 ∧
    handleRoutineGenerator r1 = handleRoutineGenerator r2 ∧
    handleAtomSpaceQuery r1 = handleAtomSpaceQuery r2 ∧
    handlePLNReasoning r1 = handlePLNReasoning r2 ∧
    handlePatternMining r1 = handlePatternMining r2 := by
  refine ⟨rfl, rfl, rfl, rfl, rfl, rfl, rfl, rfl, rfl, rfl⟩

/-- C4: one call to `updateServiceStats s` sets the counter of service `s`
to its previous value (zero when absent) plus one, and leaves every other
service counter, the total request count, and the error count unchanged. -/
theorem updateServiceStats_frame (st : RequestStats) (s : String) :
    ((updateServiceStats st s).byService s = some ((st.byService s).getD 0 + 1)) ∧
    (∀ other : String, other ≠ s →
      (updateServiceStats st s).byService other = st.byService other) ∧
    (updateServiceStats st s).total = st.total ∧
    (updateServiceStats st s).errors = st.errors := by
  refine ⟨?_, ?_, rfl, rfl⟩
  · simp [updateServiceStats]
  · intro other hne
    simp [updateServiceStats, hne]

/-- C4 witness: concrete evaluation of the frame property at a concrete
statistics state and service names. -/
theorem updateServiceStats_frame_witness :
    ((updateServiceStats ⟨7, fun n => if n = "openai" then some 3 else none, 2⟩ "openai").byService
        "openai" = some 4) ∧
    ((updateServiceStats ⟨7, fun n => if n = "openai" then some 3 else none, 2⟩ "openai").byService
        "image-analysis" = none) ∧
    (updateServiceStats ⟨7, fun n => if n = "openai" then some 3 else none, 2⟩ "openai").total = 7 ∧
    (updateServiceStats ⟨7, fun n => if n = "openai" then some 3 else none, 2⟩ "openai").errors
        = 2 := by
  have h := updateServiceStats_frame
    ⟨7, fun n => if n = "openai" then some 3 else none, 2⟩ "openai"
  refine ⟨?_, ?_, h.2.2.1, h.2.2.2⟩
  · have := h.1
    simpa using this
  · have := h.2.1 "image-analysis" (by decide)
    simpa using this

/-- C9: after every call to `predictUserJourney`, whatever the prior stored
state, the navigation history written back under `skintwin_navigation` has
exactly `min (previous length + 1) 50` entries and is a suffix of the prior
history with the new entry appended — i.e. at most 50 entries, and these
are the most recent ones. -/
theorem predictUserJourney_history_bound (nav : List NavEntry) (p : List Char) (now : Nat) :
    (predictUserJourney nav p now).1.length = min (nav.length + 1) 50 ∧
    (predictUserJourney nav p now).1 <:+ (nav ++ [{ path := p, timestamp := now }]) := by
  unfold predictUserJourney
  by_cases h : (nav ++ [({ path := p, timestamp := now } : NavEntry)]).length > 50
  · simp only [h, if_true]
    constructor
    · have hlen : (nav ++ [({ path := p, timestamp := now } : NavEntry)]).length
          = nav.length + 1 := by simp
      rw [List.length_drop, hlen]
      omega
    · exact List.drop_suffix _ _
  · simp only [h, if_false]
    constructor
    · have hlen : (nav ++ [({ path := p, timestamp := now } : NavEntry)]).length
          = nav.length + 1 := by simp
      simp only [hlen]
      simp at h
      omega
    · exact List.suffix_refl _

/-- C10: `getServiceMetrics` returns an error rate of exactly 0 when the
total request count is zero, and the exact quotient `errors / total`
(witnessed by `errorRate * total = errors` over ℚ, a genuine division by a
nonzero denominator) when the total is positive. -/
theorem getServiceMetrics_errorRate (st : RequestStats) :
    (st.total = 0 → (getServiceMetrics st).errorRate = 0) ∧
    (0 < st.total →
      (getServiceMetrics st).errorRate = (st.errors : ℚ) / (st.total : ℚ) ∧
      (getServiceMetrics st).errorRate * (st.total : ℚ) = (st.errors : ℚ)) := by
  constructor
  · intro h
    simp [getServiceMetrics, h]
  · intro h
    have hne : (st.total : ℚ) ≠ 0 := by
      exact_mod_cast Nat.pos_iff_ne_zero.mp h
    constructor
    · simp [getServiceMetrics, h]
    · simp only [getServiceMetrics, h, if_pos]
      rw [div_mul_cancel₀ _ hne]

/-- C10 witness: concrete evaluation at a zero-total state and at a state
with 4 requests and 1 error. -/
theorem getServiceMetrics_errorRate_witness :
    (getServiceMetrics ⟨0, fun _ => none, 0⟩).errorRate = 0 ∧
    (getServiceMetrics ⟨4, fun _ => none, 1⟩).errorRate * (4 : ℚ) = 1 := by
  constructor
  · exact (getServiceMetrics_errorRate ⟨0, fun _ => none, 0⟩).1 rfl
  · have h := ((getServiceMetrics_errorRate ⟨4, fun _ => none, 1⟩).2 (by norm_num)).2
    simpa using h

/-- A prefix test against a concatenation is decided by the first part when
that part is at least as long as the pattern. -/
theorem isPrefixOf_append_eq (p w r : List Char) (hlen : p.length ≤ w.length) :
    p.isPrefixOf (w ++ r) = p.isPrefixOf w := by
  cases hb : p.isPrefixOf w with
  | true =>
    have hp : p <+: w := List.isPrefixOf_iff_prefix.mp hb
    exact List.isPrefixOf_iff_prefix.mpr (hp.trans (List.prefix_append w r))
  | false =>
    cases hb2 : p.isPrefixOf (w ++ r) with
    | false => rfl
    | true =>
      exfalso
      have hpre : p <+: w ++ r := List.isPrefixOf_iff_prefix.mp hb2
      have htake : p = (w ++ r).take p.length := List.prefix_iff_eq_take.mp hpre
      have hw : p = w.take p.length := by
        conv_lhs => rw [htake]
        rw [List.take_append_of_le_length hlen]
      have hpw : p <+: w := by
        have h2 : w.take p.length <+: w := List.take_prefix _ _
        rwa [← hw] at h2
      rw [List.isPrefixOf_iff_prefix.mpr hpw] at hb
      exact Bool.false_ne_true hb.symm

/-- The scan reports position 0 when the needle matches at the front. -/
theorem findFirst_of_isPrefixOf (needle hay : List Char) (hne : needle ≠ [])
    (h : needle.isPrefixOf hay = true) : findFirst needle hay = some 0 := by
  cases hay with
  | nil =>
    exact absurd (List.prefix_nil.mp (List.isPrefixOf_iff_prefix.mp h)) hne
  | cons c cs => simp [findFirst, h]

/-- The scan steps one character forward when the needle does not match at
the front. -/
theorem findFirst_cons_of_no_match (needle : List Char) (c : Char) (cs : List Char)
    (h : needle.isPrefixOf (c :: cs) = false) :
    findFirst needle (c :: cs) = (findFirst needle cs).map (· + 1) := by
  simp [findFirst, h]

/-- A reported position is a genuine match position. -/
theorem findFirst_some_isPrefixOf (needle : List Char) :
    ∀ (hay : List Char) (i : Nat), findFirst needle hay = some i →
      needle.isPrefixOf (hay.drop i) = true := by
  intro hay
  induction hay with
  | nil =>
    intro i h
    cases needle with
    | nil =>
      simp [findFirst] at h
      subst h
      rfl
    | cons a l => simp [findFirst, List.isEmpty] at h
  | cons c cs ih =>
    intro i h
    cases hp : needle.isPrefixOf (c :: cs) with
    | true =>
      rw [findFirst] at h
      rw [hp] at h
      simp at h
      subst h
      exact hp
    | false =>
      rw [findFirst_cons_of_no_match _ _ _ hp] at h
      cases hf : findFirst needle cs with
      | none =>
        rw [hf] at h
        simp at h
      | some j =>
        rw [hf] at h
        simp at h
        subst h
        simpa using ih j hf

/-- `findFirst` locates the closing delimiter exactly at the end of a
frontmatter block inside which no earlier occurrence starts. -/
theorem findFirst_delim (B : List Char) :
    ∀ A : List Char,
      (∀ i, i < A.length → fmDelim.isPrefixOf ((A ++ fmDelim).drop i) = false) →
      findFirst fmDelim (A ++ (fmDelim ++ B)) = some A.length := by
  intro A
  induction A with
  | nil =>
    intro _
    have hpre : fmDelim.isPrefixOf (fmDelim ++ B) = true :=
      List.isPrefixOf_iff_prefix.mpr (List.prefix_append _ _)
    simpa using findFirst_of_isPrefixOf fmDelim (fmDelim ++ B) (by decide) hpre
  | cons c A' ih =>
    intro H
    have h0 : fmDelim.isPrefixOf ((c :: A') ++ (fmDelim ++ B)) = false := by
      rw [← List.append_assoc]
      rw [isPrefixOf_append_eq _ _ _ (by simp [fmDelim])]
      simpa using H 0 (by simp)
    rw [List.cons_append, findFirst_cons_of_no_match _ _ _ (by simpa using h0)]
    rw [ih (fun i hi => by
      have := H (i + 1) (by simp only [List.length_cons]; omega)
      simpa using this)]
    simp

/-- Appending matched entries one at a time is a `filterMap`. -/
theorem foldl_push_eq_filterMap :
    ∀ (l : List (List Char)) (acc : List (List Char × List Char)),
      l.foldl pushEntry acc = acc ++ l.filterMap parseFrontmatterLine := by
  intro l
  induction l with
  | nil => intro acc; simp
  | cons x xs ih =>
    intro acc
    simp only [List.foldl_cons, List.filterMap_cons]
    cases hf : parseFrontmatterLine x with
    | none =>
      simp only [pushEntry, hf]
      exact ih acc
    | some y =>
      simp only [pushEntry, hf]
      rw [ih]
      simp

/-- The frontmatter object collects exactly the entries the block's lines
contribute, in line order. -/
theorem parseFrontmatterBlock_eq_filterMap (text : List Char) :
    parseFrontmatterBlock text = (text.splitOn '\n').filterMap parseFrontmatterLine := by
  unfold parseFrontmatterBlock
  rw [foldl_push_eq_filterMap]
  simp

/-- C7: when the content begins with a frontmatter block — an opening
`---` line, block text inside which the closing delimiter does not occur,
and a closing `---` line — `parseFrontmatter` returns as body exactly the
text after the closing line, and as frontmatter the entries of the block
lines whose first colon sits at a positive index, each with the trimmed
text before the colon as key and the trimmed, quote-stripped text after it
as value; when the content does not have this shape, it returns an empty
frontmatter object and the entire content as body. -/
theorem parseFrontmatter_spec :
    (∀ A B : List Char,
      (∀ i, i < A.length → fmDelim.isPrefixOf ((A ++ fmDelim).drop i) = false) →
      parseFrontmatter (fmOpen ++ (A ++ (fmDelim ++ B)))
        = ((A.splitOn '\n').filterMap parseFrontmatterLine, B)) ∧
    (∀ content : List Char,
      (¬ ∃ A B : List Char, content = fmOpen ++ (A ++ (fmDelim ++ B))) →
      parseFrontmatter content = ([], content)) := by
  constructor
  · intro A B H
    have hpre : fmOpen.isPrefixOf (fmOpen ++ (A ++ (fmDelim ++ B))) = true :=
      List.isPrefixOf_iff_prefix.mpr (List.prefix_append _ _)
    have hdrop4 : (fmOpen ++ (A ++ (fmDelim ++ B))).drop 4 = A ++ (fmDelim ++ B) := by
      have h4 : fmOpen.length = 4 := by decide
      rw [← h4, List.drop_left]
    have hff := findFirst_delim B A H
    simp only [parseFrontmatter, hpre, if_true, hdrop4, hff]
    rw [List.take_left, parseFrontmatterBlock_eq_filterMap]
    have h5 : (5 : Nat) = fmDelim.length := by decide
    rw [List.drop_append 5, h5, List.drop_left]
  · intro content hno
    cases hpre : fmOpen.isPrefixOf content with
    | false => simp [parseFrontmatter, hpre]
    | true =>
      cases hff : findFirst fmDelim (content.drop 4) with
      | none => simp [parseFrontmatter, hpre, hff]
      | some i =>
        exfalso
        apply hno
        have hcontent : content = fmOpen ++ content.drop 4 := by
          obtain ⟨t, ht⟩ := List.isPrefixOf_iff_prefix.mp hpre
          have h4 : fmOpen.length = 4 := by decide
          rw [← ht, ← h4, List.drop_left]
        have hdel : fmDelim.isPrefixOf ((content.drop 4).drop i) = true :=
          findFirst_some_isPrefixOf _ _ _ hff
        obtain ⟨u, hu⟩ := List.isPrefixOf_iff_prefix.mp hdel
        refine ⟨(content.drop 4).take i, u, ?_⟩
        conv_lhs => rw [hcontent]
        congr 1
        conv_lhs => rw [← List.take_append_drop i (content.drop 4)]
        congr 1
        exact hu.symm

/-- C7 witness: a concrete document with one frontmatter line and a plain
body, and a concrete document with no frontmatter block. -/
theorem parseFrontmatter_spec_witness :
    parseFrontmatter (fmOpen ++ ("title: SkinTwin".data ++ (fmDelim ++ "body text".data)))
      = ([("title".data, "SkinTwin".data)], "body text".data) ∧
    parseFrontmatter "hello".data = ([], "hello".data) := by
  constructor
  · have h := parseFrontmatter_spec.1 "title: SkinTwin".data "body text".data (by decide)
    rw [h]
    decide
  · refine parseFrontmatter_spec.2 "hello".data ?_
    rintro ⟨A, B, h⟩
    have hpre : fmOpen.isPrefixOf "hello".data = true := by
      rw [h]
      exact List.isPrefixOf_iff_prefix.mpr (List.prefix_append _ _)
    exact absurd hpre (by decide)

/-- Joining twice nests the second component under the first. -/
theorem pjoin_pjoin (a b c : List Char) :
    pjoin (pjoin a b) c = a ++ '/' :: (b ++ '/' :: c) := by
  simp [pjoin]

/-- C6: every build run performs, in order: removal and recreation of the
output directory, copying of the static assets into it, rendering of every
`.md` file of the pages listing (each action trace per page writing
`index.md` to `index.html` at the output root and any other page `x.md` to
`x/index.html`, creating the directory first), generation of
`sitemap.xml`, then generation of `robots.txt`; and every action of the
run targets the output directory or a path beneath it. -/
theorem build_pipeline (env : SiteEnv) :
    (build env
      = [FsAction.removeDir env.publicDir, FsAction.ensureDir env.publicDir,
         FsAction.copyDir env.assetsDir (pjoin env.publicDir "assets".data)]
        ++ ((env.pages.filter (fun p => ".md".data.isSuffixOf p)).flatMap (buildPage env))
        ++ [FsAction.writeFile (pjoin env.publicDir "sitemap.xml".data)
              (sitemapXml siteBaseUrl (isoDate env.nowIso)),
            FsAction.writeFile (pjoin env.publicDir "robots.txt".data)
              (robotsTxt siteBaseUrl)]
        ++ cognitiveIndexActions env) ∧
    (∀ pf : List Char, ".md".data.isSuffixOf pf = true →
      (pf = "index.md".data →
        buildPage env pf
          = [FsAction.writeFile (pjoin env.publicDir "index.html".data)
              (renderPage env pf)]) ∧
      (pf ≠ "index.md".data →
        buildPage env pf
          = [FsAction.ensureDir (pjoin env.publicDir (pageBasename pf)),
             FsAction.writeFile
               (pjoin (pjoin env.publicDir (pageBasename pf)) "index.html".data)
               (renderPage env pf)])) ∧
    (∀ a ∈ build env, actionInsideDir env.publicDir a) := by
  refine ⟨rfl, ?_, ?_⟩
  · intro pf _
    constructor
    · intro he
      simp [buildPage, he]
    · intro hne
      simp [buildPage, hne]
  · intro a ha
    simp only [build, cognitiveIndexActions, List.append_assoc, List.mem_append,
      List.mem_cons, List.not_mem_nil, or_false, List.mem_flatMap] at ha
    rcases ha with (h | h | h) | ⟨pf, _, hmem⟩ | (h | h) | (h | h | h)
    · subst h
      exact Or.inl rfl
    · subst h
      exact Or.inl rfl
    · subst h
      exact Or.inr ⟨"assets".data, rfl⟩
    · by_cases he : pf = "index.md".data
      · simp only [buildPage, he, if_true, List.mem_cons, List.not_mem_nil, or_false] at hmem
        subst hmem
        exact Or.inr ⟨"index.html".data, rfl⟩
      · simp only [buildPage, he, if_false, List.mem_cons, List.not_mem_nil, or_false] at hmem
        rcases hmem with h1 | h1
        · subst h1
          exact Or.inr ⟨pageBasename pf, rfl⟩
        · subst h1
          refine Or.inr ⟨pageBasename pf ++ '/' :: "index.html".data, ?_⟩
          simp [actionTarget, pjoin_pjoin]
    · subst h
      exact Or.inr ⟨"sitemap.xml".data, rfl⟩
    · subst h
      exact Or.inr ⟨"robots.txt".data, rfl⟩
    · subst h
      exact Or.inr ⟨"cognitive".data, rfl⟩
    · subst h
      refine Or.inr ⟨"cognitive".data ++ '/' :: "index.json".data, ?_⟩
      simp [actionTarget, pjoin_pjoin]
    · subst h
      refine Or.inr ⟨"cognitive".data ++ '/' :: "api.html".data, ?_⟩
      simp [actionTarget, pjoin_pjoin]

/-- C6 witness: concrete per-page traces for a non-index page and the
index page of a concrete environment. -/
theorem build_pipeline_witness :
    buildPage demoSiteEnv "about-us.md".data
      = [FsAction.ensureDir (pjoin demoSiteEnv.publicDir "about-us".data),
         FsAction.writeFile
           (pjoin (pjoin demoSiteEnv.publicDir "about-us".data) "index.html".data)
           (renderPage demoSiteEnv "about-us.md".data)] ∧
    buildPage demoSiteEnv "index.md".data
      = [FsAction.writeFile (pjoin demoSiteEnv.publicDir "index.html".data)
          (renderPage demoSiteEnv "index.md".data)] := by
  constructor
  · have h := ((build_pipeline demoSiteEnv).2.1 "about-us.md".data (by decide)).2 (by decide)
    rw [h]
    have hb : pageBasename "about-us.md".data = "about-us".data := by decide
    rw [hb]
  · exact ((build_pipeline demoSiteEnv).2.1 "index.md".data (by decide)).1 rfl
